import Mathlib

/-!
Verification development for the configuration module of the `is-library`
web application (`src/app/config.py`).

The module's only piece of executable logic is the citation-markup
rewriter registered as the `preview` field's transformer pair
(config.py lines 103-106):

    lambda value: re.sub(r'^<span>', '<div class="csl-entry">', value, count=1),
    lambda value: re.sub(r'</span>$', '</div>', value, count=1),

Strings are embedded as `List Char`.  The two regex substitutions are
embedded exactly, following Python `re` semantics:

* `^` (without `re.MULTILINE`) matches only at position 0, so
  `re.sub(r'^<span>', repl, s, count=1)` replaces the literal `<span>`
  when it is a prefix of `s` and is the identity otherwise.
* `$` (without `re.MULTILINE`) matches at the very end of the string and
  also just before a single final newline, so `re.sub(r'</span>$', repl,
  s, count=1)` replaces the final `</span>` when `s` ends with `</span>`,
  replaces the `</span>` preceding the final newline when `s` ends with
  `"</span>\n"`, and is the identity otherwise.  (The two cases are
  mutually exclusive, and no earlier occurrence of `</span>` can sit at a
  `$` position, so `count=1` leftmost replacement is exactly this.)
-/

/-- The literal `<span>` matched by the pattern `^<span>`. -/
def openSpan : List Char := ['<', 's', 'p', 'a', 'n', '>']

/-- The replacement `<div class="csl-entry">` of the first substitution. -/
def divOpen : List Char :=
  ['<', 'd', 'i', 'v', ' ', 'c', 'l', 'a', 's', 's', '=', '"',
   'c', 's', 'l', '-', 'e', 'n', 't', 'r', 'y', '"', '>']

/-- The literal `</span>` matched by the pattern `</span>$`. -/
def closeSpan : List Char := ['<', '/', 's', 'p', 'a', 'n', '>']

/-- The replacement `</div>` of the second substitution. -/
def divClose : List Char := ['<', '/', 'd', 'i', 'v', '>']

/-- Embedding of `lambda value: re.sub(r'^<span>', '<div class="csl-entry">', value, count=1)`
(config.py line 104). -/
def sub1 (s : List Char) : List Char :=
  if s.take 6 = openSpan then divOpen ++ s.drop 6 else s

/-- Embedding of `lambda value: re.sub(r'</span>$', '</div>', value, count=1)`
(config.py line 105).  The first branch is a match of `</span>` at the very
end of the string; the second is a match just before a single trailing
newline (Python `$` semantics). -/
def sub2 (s : List Char) : List Char :=
  if s.drop (s.length - 7) = closeSpan then
    s.take (s.length - 7) ++ divClose
  else if s.drop (s.length - 8) = closeSpan ++ ['\n'] then
    s.take (s.length - 8) ++ divClose ++ ['\n']
  else s

/-- The preview transformer pipeline: the two substitutions applied in
sequence (config.py lines 103-106). -/
def rewriter (s : List Char) : List Char := sub2 (sub1 s)

/-- `sub2` on a string that ends with `</span>`. -/
theorem sub2_close (p : List Char) : sub2 (p ++ closeSpan) = p ++ divClose := by
  have hlen : (p ++ closeSpan).length = p.length + 7 := by simp [closeSpan]
  have hd : (p ++ closeSpan).drop ((p ++ closeSpan).length - 7) = closeSpan := by
    rw [hlen, Nat.add_sub_cancel]
    exact List.drop_left p closeSpan
  have ht : (p ++ closeSpan).take ((p ++ closeSpan).length - 7) = p := by
    rw [hlen, Nat.add_sub_cancel]
    exact List.take_left p closeSpan
  rw [sub2, if_pos hd, ht]

/-- `sub2` on a string that ends with `</span>` followed by one newline. -/
theorem sub2_closeNl (p : List Char) :
    sub2 (p ++ (closeSpan ++ ['\n'])) = p ++ (divClose ++ ['\n']) := by
  have hlen : (p ++ (closeSpan ++ ['\n'])).length = p.length + 8 := by simp [closeSpan]
  have hne : (p ++ (closeSpan ++ ['\n'])).drop ((p ++ (closeSpan ++ ['\n'])).length - 7)
      ≠ closeSpan := by
    rw [hlen, show p.length + 8 - 7 = p.length + 1 from by omega, List.drop_append]
    decide
  have hd : (p ++ (closeSpan ++ ['\n'])).drop ((p ++ (closeSpan ++ ['\n'])).length - 8)
      = closeSpan ++ ['\n'] := by
    rw [hlen, Nat.add_sub_cancel]
    exact List.drop_left p _
  have ht : (p ++ (closeSpan ++ ['\n'])).take ((p ++ (closeSpan ++ ['\n'])).length - 8) = p := by
    rw [hlen, Nat.add_sub_cancel]
    exact List.take_left p _
  rw [sub2, if_neg hne, if_pos hd, ht, List.append_assoc]

/-- `sub1` on a string that starts with `<span>`. -/
theorem sub1_open (r : List Char) : sub1 (openSpan ++ r) = divOpen ++ r := by
  have ht : (openSpan ++ r).take 6 = openSpan := List.take_left' (by decide)
  have hd : (openSpan ++ r).drop 6 = r := List.drop_left' (by decide)
  rw [sub1, if_pos ht, hd]

/-- C1.  For every string of the shape `<span>` ++ interior ++ `</span>`,
the preview rewriter (the two regex substitutions in sequence) produces
`<div class="csl-entry">` ++ interior ++ `</div>`, the interior unchanged. -/
theorem C1_rewriter_wrapped (mid : List Char) :
    rewriter (openSpan ++ mid ++ closeSpan) = divOpen ++ mid ++ divClose := by
  rw [rewriter, List.append_assoc, sub1_open, ← List.append_assoc, sub2_close,
    List.append_assoc]

/-- A list of at most 5 characters followed by text starting `</` can never
have `<span>` as its first six characters. -/
theorem startsOpen_append_tag (q t : List Char) (hq : q.length ≤ 5) :
    (q ++ ('<' :: '/' :: t)).take 6 ≠ openSpan := by
  intro h
  rcases q with _ | ⟨a, _ | ⟨b, _ | ⟨c, _ | ⟨d, _ | ⟨e, _ | ⟨f, q⟩⟩⟩⟩⟩⟩ <;>
    simp [openSpan] at h hq

/-- The output of the opening-tag substitution never starts with `<span>`. -/
theorem sub1_take6 (s : List Char) : (sub1 s).take 6 ≠ openSpan := by
  rw [sub1]
  split
  case isTrue h =>
    rw [List.take_append_of_le_length (by decide)]
    decide
  case isFalse h => exact h

/-- The closing-tag substitution cannot make a string start with `<span>`. -/
theorem sub2_take6 (t : List Char) (h : t.take 6 ≠ openSpan) :
    (sub2 t).take 6 ≠ openSpan := by
  rw [sub2]
  split
  case isTrue h2 =>
    rcases le_or_lt 6 (t.length - 7) with h6 | h6
    · rw [List.take_append_of_le_length (by simp; omega), List.take_take]
      simpa [Nat.min_eq_left h6] using h
    · have hq : (t.take (t.length - 7)).length ≤ 5 := by simp; omega
      rw [show divClose = '<' :: '/' :: ['d', 'i', 'v', '>'] from rfl]
      exact startsOpen_append_tag _ _ hq
  case isFalse h2 =>
    split
    case isTrue h3 =>
      rcases le_or_lt 6 (t.length - 8) with h6 | h6
      · rw [List.append_assoc, List.take_append_of_le_length (by simp; omega), List.take_take]
        simpa [Nat.min_eq_left h6] using h
      · have hq : (t.take (t.length - 8)).length ≤ 5 := by simp; omega
        rw [List.append_assoc,
          show divClose ++ ['\n'] = '<' :: '/' :: ['d', 'i', 'v', '>', '\n'] from rfl]
        exact startsOpen_append_tag _ _ hq
    case isFalse h3 => exact h

/-- The opening-tag substitution is the identity when `<span>` is not a prefix. -/
theorem sub1_id {s : List Char} (h : ¬ s.take 6 = openSpan) : sub1 s = s := by
  rw [sub1, if_neg h]

/-- The closing-tag substitution is the identity when neither `$`-anchored
occurrence of `</span>` is present. -/
theorem sub2_id {s : List Char} (h2 : ¬ s.drop (s.length - 7) = closeSpan)
    (h3 : ¬ s.drop (s.length - 8) = closeSpan ++ ['\n']) : sub2 s = s := by
  rw [sub2, if_neg h2, if_neg h3]

/-- A drop of a list whose last element differs from the last element of `m`
can never equal `m`. -/
theorem drop_ne_of_getLast? {u m : List Char} {k : Nat} {a b : Char}
    (hu : u.getLast? = some a) (hm : m.getLast? = some b) (hne : a ≠ b) :
    u.drop k ≠ m := by
  intro h
  apply hne
  have h2 : u.getLast? = some b := by
    conv_lhs => rw [← List.take_append_drop k u]
    rw [h, List.getLast?_append, hm]
    rfl
  rw [hu] at h2
  exact Option.some.inj h2

/-- A string ending in `</div>` does not end in `</span>`. -/
theorem sub2_drop7_ne (q : List Char) :
    (q ++ divClose).drop ((q ++ divClose).length - 7) ≠ closeSpan := by
  rcases q.eq_nil_or_concat with rfl | ⟨L, b, rfl⟩
  · decide
  · intro h
    rw [List.concat_eq_append, List.append_assoc, List.singleton_append] at h
    have hlen : (L ++ b :: divClose).length - 7 = L.length := by
      simp [divClose]
    rw [hlen, List.drop_left] at h
    simp [divClose, closeSpan] at h

/-- A string ending in `</div>` plus newline does not end in `</span>` plus
newline. -/
theorem sub2_drop8_ne_nl (q : List Char) :
    (q ++ (divClose ++ ['\n'])).drop ((q ++ (divClose ++ ['\n'])).length - 8)
      ≠ closeSpan ++ ['\n'] := by
  rcases q.eq_nil_or_concat with rfl | ⟨L, b, rfl⟩
  · decide
  · intro h
    rw [List.concat_eq_append, List.append_assoc, List.singleton_append] at h
    have hlen : (L ++ b :: (divClose ++ ['\n'])).length - 8 = L.length := by
      simp [divClose]
    rw [hlen, List.drop_left] at h
    simp [divClose, closeSpan] at h

/-- The closing-tag substitution is idempotent. -/
theorem sub2_sub2 (t : List Char) : sub2 (sub2 t) = sub2 t := by
  by_cases h2 : t.drop (t.length - 7) = closeSpan
  · have e : sub2 t = t.take (t.length - 7) ++ divClose := by rw [sub2, if_pos h2]
    rw [e]
    exact sub2_id (sub2_drop7_ne _)
      (drop_ne_of_getLast? (by rw [List.getLast?_append]; rfl) rfl (by decide))
  · by_cases h3 : t.drop (t.length - 8) = closeSpan ++ ['\n']
    · have e : sub2 t = t.take (t.length - 8) ++ divClose ++ ['\n'] := by
        rw [sub2, if_neg h2, if_pos h3]
      rw [e]
      apply sub2_id
      · exact drop_ne_of_getLast? (by rw [List.getLast?_append]; rfl) rfl (by decide)
      · rw [List.append_assoc]
        exact sub2_drop8_ne_nl _
    · rw [sub2_id h2 h3, sub2_id h2 h3]

/-- The full rewriter is idempotent. -/
theorem rewriter_idem (s : List Char) : rewriter (rewriter s) = rewriter s := by
  simp only [rewriter]
  rw [sub1_id (sub2_take6 _ (sub1_take6 s)), sub2_sub2]

/-- C2 counterexample: the string `"</span>\n"` does not end with `</span>`
(its last character is a newline), yet the closing-tag substitution changes
it, because Python `$` also matches before a single trailing newline. -/
theorem C2_counterexample :
    "</span>\n".toList.drop ("</span>\n".toList.length - 7) ≠ closeSpan
    ∧ sub2 "</span>\n".toList ≠ "</span>\n".toList := by decide

/-- C2 (amended).  The opening-tag substitution is the identity on strings
not starting with `<span>`; the closing-tag substitution is the identity on
strings ending neither with `</span>` nor with `</span>` plus a single
trailing newline; the full rewriter is the identity on strings matching
neither regex pattern; and applying the rewriter twice gives the same
result as applying it once. -/
theorem C2_noop_and_idem (s : List Char) :
    (s.take 6 ≠ openSpan → sub1 s = s)
    ∧ (s.drop (s.length - 7) ≠ closeSpan →
        s.drop (s.length - 8) ≠ closeSpan ++ ['\n'] → sub2 s = s)
    ∧ (s.take 6 ≠ openSpan → s.drop (s.length - 7) ≠ closeSpan →
        s.drop (s.length - 8) ≠ closeSpan ++ ['\n'] → rewriter s = s)
    ∧ rewriter (rewriter s) = rewriter s := by
  refine ⟨sub1_id, sub2_id, ?_, rewriter_idem s⟩
  intro h1 h2 h3
  rw [rewriter, sub1_id h1, sub2_id h2 h3]

/-- C2 witness: the amended claim evaluated on the concrete string
`"hello"`, which matches neither boundary pattern. -/
theorem C2_witness :
    sub2 "hello".toList = "hello".toList
    ∧ rewriter "hello".toList = "hello".toList := by
  refine ⟨(C2_noop_and_idem "hello".toList).2.1 (by decide) (by decide),
    (C2_noop_and_idem "hello".toList).2.2.1 (by decide) (by decide) (by decide)⟩

/-- C4.  The rewriter is a total function: an absent opening tag leaves the
start of the string untouched (the first substitution is a no-op and the
result is just the closing-tag substitution); absent closing patterns leave
the end untouched (the result is just the opening-tag substitution); when
both are absent the input passes through unchanged, never rejected. -/
theorem C4_passthrough (s : List Char) :
    (s.take 6 ≠ openSpan → rewriter s = sub2 s)
    ∧ ((sub1 s).drop ((sub1 s).length - 7) ≠ closeSpan →
        (sub1 s).drop ((sub1 s).length - 8) ≠ closeSpan ++ ['\n'] →
        rewriter s = sub1 s)
    ∧ (s.take 6 ≠ openSpan →
        s.drop (s.length - 7) ≠ closeSpan →
        s.drop (s.length - 8) ≠ closeSpan ++ ['\n'] →
        rewriter s = s) := by
  refine ⟨?_, ?_, ?_⟩
  · intro h1
    rw [rewriter, sub1_id h1]
  · intro h2 h3
    rw [rewriter, sub2_id h2 h3]
  · intro h1 h2 h3
    rw [rewriter, sub1_id h1, sub2_id h2 h3]

/-- C4 witness: malformed input `"<p>hi</p>"` (no expected tags at either
boundary) passes through the rewriter unchanged. -/
theorem C4_witness :
    rewriter "<p>hi</p>".toList = "<p>hi</p>".toList := by
  exact (C4_passthrough "<p>hi</p>".toList).2.2 (by decide) (by decide) (by decide)

/-- No suffix of the replacement `<div class="csl-entry">` (of length at
most 7) can begin the literal `</span>`. -/
theorem divOpen_drop_ne_close (k : Nat) (r : List Char) (hk : k ≤ 6) :
    divOpen.drop (16 + k) ++ r ≠ closeSpan := by
  interval_cases k <;> simp [divOpen, closeSpan]

/-- No suffix of the replacement `<div class="csl-entry">` (of length at
most 8) can begin the literal `</span>` plus newline. -/
theorem divOpen_drop_ne_closeNl (k : Nat) (r : List Char) (hk : k ≤ 7) :
    divOpen.drop (15 + k) ++ r ≠ closeSpan ++ ['\n'] := by
  interval_cases k <;> simp [divOpen, closeSpan]

/-- C10.  The closing-tag substitution also fires just before a single
trailing newline: for every string `s`, the rewriter maps
`s ++ "</span>\n"` to the opening-rewritten prefix followed by
`"</div>\n"`, so the replaced closing tag is not strictly string-final. -/
theorem C10_trailing_newline (s : List Char) :
    rewriter (s ++ "</span>\n".toList) = sub1 s ++ "</div>\n".toList := by
  have e1 : "</span>\n".toList = closeSpan ++ ['\n'] := by decide
  have e2 : "</div>\n".toList = divClose ++ ['\n'] := by decide
  rw [e1, e2]
  by_cases h1 : s.take 6 = openSpan
  · have hs : s = openSpan ++ s.drop 6 := by
      conv_lhs => rw [← List.take_append_drop 6 s]
      rw [h1]
    rw [rewriter]
    conv_lhs => rw [hs]
    conv_rhs => rw [hs, sub1_open]
    rw [List.append_assoc, sub1_open, ← List.append_assoc, sub2_closeNl]
  · have hno : (s ++ (closeSpan ++ ['\n'])).take 6 ≠ openSpan := by
      rcases le_or_lt 6 s.length with h6 | h6
      · rw [List.take_append_of_le_length h6]
        exact h1
      · rw [show closeSpan ++ ['\n'] = '<' :: '/' :: ['s', 'p', 'a', 'n', '>', '\n'] from rfl]
        exact startsOpen_append_tag _ _ (by omega)
    rw [rewriter, sub1_id hno, sub2_closeNl, sub1_id h1]

/-- C3 counterexample: the string `"abc</span>\n"` starts with no `<span>`
and does not end with `</span>` (so, as stated, the claim would force the
rewriter to change nothing), yet the rewriter replaces the `</span>`
occurrence sitting before the trailing newline. -/
theorem C3_counterexample :
    rewriter "abc</span>\n".toList = "abc</div>\n".toList
    ∧ rewriter "abc</span>\n".toList ≠ "abc</span>\n".toList
    ∧ "abc</span>\n".toList.take 6 ≠ openSpan
    ∧ "abc</span>\n".toList.drop ("abc</span>\n".toList.length - 7) ≠ closeSpan := by
  decide

/-- C3 (amended).  Every input decomposes as an optional leading `<span>`,
an interior, and an optional trailing `</span>` or `</span>` plus single
newline, such that the rewriter replaces exactly those boundary
occurrences (`<span>` by `<div class="csl-entry">`, `</span>` by
`</div>`) and reproduces every other character unchanged and in order. -/
theorem C3_decomposition (s : List Char) :
    ∃ pre mid suf pre2 suf2,
      s = pre ++ mid ++ suf
      ∧ rewriter s = pre2 ++ mid ++ suf2
      ∧ ((pre = openSpan ∧ pre2 = divOpen) ∨ (pre = [] ∧ pre2 = []))
      ∧ ((suf = closeSpan ∧ suf2 = divClose)
          ∨ (suf = closeSpan ++ ['\n'] ∧ suf2 = divClose ++ ['\n'])
          ∨ (suf = [] ∧ suf2 = [])) := by
  by_cases h1 : s.take 6 = openSpan
  · have hs : s = openSpan ++ s.drop 6 := by
      conv_lhs => rw [← List.take_append_drop 6 s]
      rw [h1]
    have hrew : rewriter s = sub2 (divOpen ++ s.drop 6) := by
      rw [rewriter]
      conv_lhs => rw [hs, sub1_open]
    by_cases h2 : (s.drop 6).drop ((s.drop 6).length - 7) = closeSpan
    · have hr : s.drop 6 = (s.drop 6).take ((s.drop 6).length - 7) ++ closeSpan := by
        conv_lhs => rw [← List.take_append_drop ((s.drop 6).length - 7) (s.drop 6)]
        rw [h2]
      refine ⟨openSpan, (s.drop 6).take ((s.drop 6).length - 7), closeSpan,
        divOpen, divClose, ?_, ?_, Or.inl ⟨rfl, rfl⟩, Or.inl ⟨rfl, rfl⟩⟩
      · rw [List.append_assoc, ← hr]
        exact hs
      · rw [hrew]
        conv_lhs => rw [hr]
        rw [← List.append_assoc, sub2_close]
    · by_cases h3 : (s.drop 6).drop ((s.drop 6).length - 8) = closeSpan ++ ['\n']
      · have hr : s.drop 6
            = (s.drop 6).take ((s.drop 6).length - 8) ++ (closeSpan ++ ['\n']) := by
          conv_lhs => rw [← List.take_append_drop ((s.drop 6).length - 8) (s.drop 6)]
          rw [h3]
        refine ⟨openSpan, (s.drop 6).take ((s.drop 6).length - 8), closeSpan ++ ['\n'],
          divOpen, divClose ++ ['\n'], ?_, ?_, Or.inl ⟨rfl, rfl⟩, Or.inr (Or.inl ⟨rfl, rfl⟩)⟩
        · rw [List.append_assoc, ← hr]
          exact hs
        · rw [hrew]
          conv_lhs => rw [hr]
          rw [← List.append_assoc, sub2_closeNl]
      · have hdo : divOpen.length = 23 := rfl
        have hu2 : ¬ (divOpen ++ s.drop 6).drop ((divOpen ++ s.drop 6).length - 7)
            = closeSpan := by
          rcases le_or_lt 7 (s.drop 6).length with h7 | h7
          · have e : (divOpen ++ s.drop 6).length - 7
                = divOpen.length + ((s.drop 6).length - 7) := by
              rw [List.length_append]
              omega
            rw [e, List.drop_append]
            exact h2
          · have e : (divOpen ++ s.drop 6).length - 7 = 16 + (s.drop 6).length := by
              rw [List.length_append]
              omega
            rw [e, List.drop_append_of_le_length (by omega)]
            exact divOpen_drop_ne_close _ _ (by omega)
        have hu3 : ¬ (divOpen ++ s.drop 6).drop ((divOpen ++ s.drop 6).length - 8)
            = closeSpan ++ ['\n'] := by
          rcases le_or_lt 8 (s.drop 6).length with h8 | h8
          · have e : (divOpen ++ s.drop 6).length - 8
                = divOpen.length + ((s.drop 6).length - 8) := by
              rw [List.length_append]
              omega
            rw [e, List.drop_append]
            exact h3
          · have e : (divOpen ++ s.drop 6).length - 8 = 15 + (s.drop 6).length := by
              rw [List.length_append]
              omega
            rw [e, List.drop_append_of_le_length (by omega)]
            exact divOpen_drop_ne_closeNl _ _ (by omega)
        refine ⟨openSpan, s.drop 6, [], divOpen, [], ?_, ?_,
          Or.inl ⟨rfl, rfl⟩, Or.inr (Or.inr ⟨rfl, rfl⟩)⟩
        · rw [List.append_nil]
          exact hs
        · rw [List.append_nil, hrew, sub2_id hu2 hu3]
  · have hsub1 : sub1 s = s := sub1_id h1
    by_cases h2 : s.drop (s.length - 7) = closeSpan
    · have hs2 : s = s.take (s.length - 7) ++ closeSpan := by
        conv_lhs => rw [← List.take_append_drop (s.length - 7) s]
        rw [h2]
      refine ⟨[], s.take (s.length - 7), closeSpan, [], divClose, ?_, ?_,
        Or.inr ⟨rfl, rfl⟩, Or.inl ⟨rfl, rfl⟩⟩
      · rw [List.nil_append]
        exact hs2
      · rw [List.nil_append, rewriter, hsub1]
        conv_lhs => rw [hs2]
        rw [sub2_close]
    · by_cases h3 : s.drop (s.length - 8) = closeSpan ++ ['\n']
      · have hs2 : s = s.take (s.length - 8) ++ (closeSpan ++ ['\n']) := by
          conv_lhs => rw [← List.take_append_drop (s.length - 8) s]
          rw [h3]
        refine ⟨[], s.take (s.length - 8), closeSpan ++ ['\n'], [], divClose ++ ['\n'], ?_, ?_,
          Or.inr ⟨rfl, rfl⟩, Or.inr (Or.inl ⟨rfl, rfl⟩)⟩
        · rw [List.nil_append]
          exact hs2
        · rw [List.nil_append, rewriter, hsub1]
          conv_lhs => rw [hs2]
          rw [sub2_closeNl]
      · refine ⟨[], s, [], [], [], ?_, ?_,
          Or.inr ⟨rfl, rfl⟩, Or.inr (Or.inr ⟨rfl, rfl⟩)⟩
        · simp
        · rw [rewriter, hsub1, sub2_id h2 h3]
          simp

/-!
Configuration embedding.

`config.py` reads environment variables through the `environs` library
(`env.str` / `env.bool` / `env.int`, required unless a default is given),
computes two `pathlib` paths, and registers field and facet descriptors
with a `kerko` `Composer`.  The environment is embedded as a partial map
from variable names to raw string values; configuration-class bodies
become builder functions returning `Option` (a `none` result embeds the
exception that aborts the module import).
-/

/-- An environment: a partial map from variable names to raw values. -/
def Environ : Type := String → Option String

/-- Modelled from the spec: the `environs` boolean parse used by
`env.bool` ("each with a typed parse (string/bool/int)"), accepting the
usual truthy and falsy spellings and failing otherwise. -/
def parseBool (v : String) : Option Bool :=
  let l := v.toLower
  if l = "1" ∨ l = "true" ∨ l = "yes" ∨ l = "on" ∨ l = "y" ∨ l = "t" then some true
  else if l = "0" ∨ l = "false" ∨ l = "no" ∨ l = "off" ∨ l = "n" ∨ l = "f" then some false
  else none

/-- Decimal digits to a natural number. -/
def digitsToNat (cs : List Char) : Nat :=
  cs.foldl (fun a c => a * 10 + (c.toNat - 48)) 0

/-- Modelled from the spec: the `environs` integer parse used by
`env.int` — an optional leading minus sign followed by decimal digits —
failing on non-numeric input. -/
def parseInt (v : String) : Option Int :=
  match v.toList with
  | [] => none
  | '-' :: rest =>
    if rest ≠ [] ∧ rest.all Char.isDigit then some (-(Int.ofNat (digitsToNat rest)))
    else none
  | cs =>
    if cs.all Char.isDigit then some (Int.ofNat (digitsToNat cs)) else none

/-- `env.str(name, default)`: the raw value when present, else the default. -/
def envStrD (e : Environ) (name df : String) : String := (e name).getD df

/-- `env.bool(name, default)`: the parsed boolean when present, else the
default; `none` embeds a parse failure. -/
def envBoolD (e : Environ) (name : String) (df : Bool) : Option Bool :=
  match e name with
  | none => some df
  | some v => parseBool v

/-- `env.int(name, default)`: the parsed integer when present, else the
default; `none` embeds a parse failure. -/
def envIntD (e : Environ) (name : String) (df : Int) : Option Int :=
  match e name with
  | none => some df
  | some v => parseInt v

/-- Modelled from the spec: filesystem context for the two `pathlib`
computations of the module, abstracted because they depend on the process
state: `absParent p` stands for `str(Path(p).parent.absolute())` (the app
directory derived from `FLASK_APP`, config.py line 18) and `pkgParent`
for `str(Path(__file__).parent.parent)` (used by `LIBSASS_INCLUDES`,
lines 31-34). -/
structure FsCtx where
  absParent : String → String
  pkgParent : String

/-- Path joining, `pathlib`'s `/` operator on string paths. -/
def pathJoin (a b : String) : String := a ++ "/" ++ b

/-- Modelled from the spec: `flask_babel.gettext` (imported as `_`) marks
user-facing strings for translation; at configuration time it resolves to
the given string. -/
def gettext (s : String) : String := s

/-- A kerko `FieldSpec` registration, kept as a declarative record; the
`transformers` entries name the transformer functions attached to the
field (for the `preview` field these are `sub1` and `sub2` above). -/
structure FieldSpec where
  key : String
  field_type : String
  extractor : String
  transformers : List String
  codec : Option String

/-- A kerko `CollectionFacetSpec` registration. -/
structure CollectionFacetSpec where
  key : String
  filter_key : String
  title : String
  weight : Nat
  collection_key : String

/-- Modelled from the spec: the kerko `Composer` registry object, holding
its constructor settings and the registered field and facet descriptors. -/
structure Composer where
  whoosh_language : String
  exclude_default_facets : List String
  exclude_default_fields : List String
  default_child_include_re : String
  default_child_exclude_re : String
  fields : List FieldSpec
  facets : List CollectionFacetSpec

/-- `Composer.add_field`: register one more field descriptor. -/
def Composer.add_field (c : Composer) (f : FieldSpec) : Composer :=
  { c with fields := c.fields ++ [f] }

/-- `Composer.add_facet`: register one more facet descriptor. -/
def Composer.add_facet (c : Composer) (f : CollectionFacetSpec) : Composer :=
  { c with facets := c.facets ++ [f] }

/-- `Config.KERKO_COMPOSER` after the registrations of config.py lines
68-140: the constructor call, the `data` and `preview` fields, and the
three collection facets, in source order. -/
def kerkoComposer : Composer :=
  ((((({ whoosh_language := "en"
         exclude_default_facets := ["facet_tag", "facet_link", "facet_item_type"]
         exclude_default_fields := ["data"]
         default_child_include_re := "^(_publish|publishPDF)$"
         default_child_exclude_re := ""
         fields := []
         facets := [] : Composer }).add_field
    { key := "data"
      field_type := "STORED"
      extractor := "TransformerExtractor(RawDataExtractor)"
      transformers := ["extra_field_cleaner"]
      codec := some "JSONFieldCodec" }).add_field
    { key := "preview"
      field_type := "STORED"
      extractor := "TransformerExtractor(ItemExtractor(key=citation, format_=citation))"
      transformers := ["sub1", "sub2"]
      codec := none }).add_facet
    { key := "facet_proposal"
      filter_key := "proposal"
      title := gettext "Our proposal"
      weight := 10
      collection_key := "XWXU8XAB" }).add_facet
    { key := "facet_theme"
      filter_key := "theme"
      title := gettext "Theme"
      weight := 20
      collection_key := "Z27MIXI7" }).add_facet
    { key := "facet_location"
      filter_key := "location"
      title := gettext "Location"
      weight := 30
      collection_key := "5JVH374W" }

/-- The attributes of the base `Config` class (config.py lines 17-140). -/
structure BaseConfig where
  app_dir : String
  SECRET_KEY : String
  KERKO_ZOTERO_API_KEY : String
  KERKO_ZOTERO_LIBRARY_ID : String
  KERKO_ZOTERO_LIBRARY_TYPE : String
  KERKO_DATA_DIR : String
  LOGGING_HANDLER : String
  EXPLAIN_TEMPLATE_LOADING : Bool
  LIBSASS_INCLUDES : List String
  BABEL_DEFAULT_LOCALE : String
  KERKO_WHOOSH_LANGUAGE : String
  KERKO_ZOTERO_LOCALE : String
  HOME_URL : String
  HOME_TITLE : String
  NAV_TITLE : String
  KERKO_TITLE : String
  EVED_IO_TITLE : String
  EVED_IO_LINK : String
  KERKO_PRINT_ITEM_LINK : Bool
  KERKO_PRINT_CITATIONS_LINK : Bool
  KERKO_RESULTS_FIELDS : List String
  KERKO_RESULTS_ABSTRACTS : Bool
  KERKO_RESULTS_ABSTRACTS_MAX_LENGTH : Nat
  KERKO_RESULTS_ABSTRACTS_MAX_LENGTH_LEEWAY : Nat
  KERKO_TEMPLATE_BASE : String
  KERKO_TEMPLATE_LAYOUT : String
  KERKO_TEMPLATE_SEARCH : String
  KERKO_TEMPLATE_SEARCH_ITEM : String
  KERKO_TEMPLATE_ITEM : String
  KERKO_DOWNLOAD_ATTACHMENT_NEW_WINDOW : Bool
  KERKO_RELATIONS_INITIAL_LIMIT : Nat
  KERKO_CSL_STYLE : String
  KERKO_COMPOSER : Composer

/-- The base `Config` record built from the five required environment
values, in source order. -/
def baseOf (fs : FsCtx) (e : Environ) (fa sk zak zlid zlt : String) : BaseConfig :=
  { app_dir := fs.absParent fa
    SECRET_KEY := sk
    KERKO_ZOTERO_API_KEY := zak
    KERKO_ZOTERO_LIBRARY_ID := zlid
    KERKO_ZOTERO_LIBRARY_TYPE := zlt
    KERKO_DATA_DIR := envStrD e "KERKO_DATA_DIR"
      (pathJoin (pathJoin (fs.absParent fa) "data") "kerko")
    LOGGING_HANDLER := "default"
    EXPLAIN_TEMPLATE_LOADING := false
    LIBSASS_INCLUDES :=
      [pathJoin (pathJoin (pathJoin (pathJoin (pathJoin fs.pkgParent
        "static") "src") "vendor") "bootstrap") "scss",
       pathJoin (pathJoin (pathJoin (pathJoin (pathJoin (pathJoin fs.pkgParent
        "static") "src") "vendor") "@fortawesome") "fontawesome-free") "scss"]
    BABEL_DEFAULT_LOCALE := "en_GB"
    KERKO_WHOOSH_LANGUAGE := "en"
    KERKO_ZOTERO_LOCALE := "en-GB"
    HOME_URL := "https://is.eved.io"
    HOME_TITLE := gettext "Implementation Science"
    NAV_TITLE := gettext "Home"
    KERKO_TITLE := gettext "Implementation Science"
    EVED_IO_TITLE := gettext "eved.io"
    EVED_IO_LINK := gettext "https://eved.io"
    KERKO_PRINT_ITEM_LINK := true
    KERKO_PRINT_CITATIONS_LINK := true
    KERKO_RESULTS_FIELDS := ["id", "attachments", "bib", "coins", "data", "preview", "url"]
    KERKO_RESULTS_ABSTRACTS := true
    KERKO_RESULTS_ABSTRACTS_MAX_LENGTH := 500
    KERKO_RESULTS_ABSTRACTS_MAX_LENGTH_LEEWAY := 40
    KERKO_TEMPLATE_BASE := "app/base.html.jinja2"
    KERKO_TEMPLATE_LAYOUT := "app/layout.html.jinja2"
    KERKO_TEMPLATE_SEARCH := "app/search.html.jinja2"
    KERKO_TEMPLATE_SEARCH_ITEM := "app/search-item.html.jinja2"
    KERKO_TEMPLATE_ITEM := "app/item.html.jinja2"
    KERKO_DOWNLOAD_ATTACHMENT_NEW_WINDOW := true
    KERKO_RELATIONS_INITIAL_LIMIT := 50
    KERKO_CSL_STYLE := "https://docs.edtechhub.org/static/dist/csl/eth_apa.xml?202012301815"
    KERKO_COMPOSER := kerkoComposer }

/-- Evaluating the `Config` class body: the five required `env.str` reads
(`FLASK_APP`, `SECRET_KEY`, `KERKO_ZOTERO_API_KEY`,
`KERKO_ZOTERO_LIBRARY_ID`, `KERKO_ZOTERO_LIBRARY_TYPE`) must all be
present, otherwise the class body raises and no configuration exists. -/
def mkBase (fs : FsCtx) (e : Environ) : Option BaseConfig :=
  match e "FLASK_APP", e "SECRET_KEY", e "KERKO_ZOTERO_API_KEY",
      e "KERKO_ZOTERO_LIBRARY_ID", e "KERKO_ZOTERO_LIBRARY_TYPE" with
  | some fa, some sk, some zak, some zlid, some zlt =>
    some (baseOf fs e fa sk zak zlid zlt)
  | _, _, _, _, _ => none

/-- `DevelopmentConfig(Config)` (config.py lines 143-150): all base
attributes plus the development extras. -/
structure DevConfig extends BaseConfig where
  CONFIG : String
  DEBUG : Bool
  ASSETS_DEBUG : Bool
  KERKO_ZOTERO_START : Int
  KERKO_ZOTERO_END : Int
  LIBSASS_STYLE : String
  LOGGING_LEVEL : String

/-- `ProductionConfig(Config)` (config.py lines 153-160): all base
attributes plus the production extras. -/
structure ProdConfig extends BaseConfig where
  CONFIG : String
  DEBUG : Bool
  ASSETS_DEBUG : Bool
  ASSETS_AUTO_BUILD : Bool
  LOGGING_LEVEL : String
  GOOGLE_ANALYTICS_ID : String
  LIBSASS_STYLE : String

/-- The `DevelopmentConfig` record over a given base. -/
def devOf (e : Environ) (b : BaseConfig) (ad : Bool) (zs ze : Int) : DevConfig :=
  { toBaseConfig := b
    CONFIG := "development"
    DEBUG := true
    ASSETS_DEBUG := ad
    KERKO_ZOTERO_START := zs
    KERKO_ZOTERO_END := ze
    LIBSASS_STYLE := "expanded"
    LOGGING_LEVEL := envStrD e "LOGGING_LEVEL" "DEBUG" }

/-- Evaluating the `DevelopmentConfig` class body. -/
def mkDev (fs : FsCtx) (e : Environ) : Option DevConfig :=
  match mkBase fs e, envBoolD e "ASSETS_DEBUG" true,
      envIntD e "KERKO_ZOTERO_START" 0, envIntD e "KERKO_ZOTERO_END" 0 with
  | some b, some ad, some zs, some ze => some (devOf e b ad zs ze)
  | _, _, _, _ => none

/-- The `ProductionConfig` record over a given base. -/
def prodOf (e : Environ) (b : BaseConfig) (ad : Bool) : ProdConfig :=
  { toBaseConfig := b
    CONFIG := "production"
    DEBUG := false
    ASSETS_DEBUG := ad
    ASSETS_AUTO_BUILD := false
    LOGGING_LEVEL := envStrD e "LOGGING_LEVEL" "WARNING"
    GOOGLE_ANALYTICS_ID := ""
    LIBSASS_STYLE := "compressed" }

/-- Evaluating the `ProductionConfig` class body. -/
def mkProd (fs : FsCtx) (e : Environ) : Option ProdConfig :=
  match mkBase fs e, envBoolD e "ASSETS_DEBUG" false with
  | some b, some ad => some (prodOf e b ad)
  | _, _ => none

/-- The `CONFIGS` dict (config.py lines 163-166). -/
def CONFIGS (fs : FsCtx) (e : Environ) (name : String) :
    Option (DevConfig ⊕ ProdConfig) :=
  if name = "development" then (mkDev fs e).map Sum.inl
  else if name = "production" then (mkProd fs e).map Sum.inr
  else none

/-- Importing the module evaluates every class body; a failure anywhere
aborts the import with no configuration produced. -/
def loadModule (fs : FsCtx) (e : Environ) : Option (DevConfig × ProdConfig) :=
  match mkDev fs e, mkProd fs e with
  | some d, some p => some (d, p)
  | _, _ => none

/-- Unfolding `env.str` with a default on an absent variable. -/
theorem envStrD_none {e : Environ} {name df : String} (h : e name = none) :
    envStrD e name df = df := by
  unfold envStrD
  rw [h]
  rfl

/-- Unfolding `env.str` with a default on a present variable. -/
theorem envStrD_some {e : Environ} {name df v : String} (h : e name = some v) :
    envStrD e name df = v := by
  unfold envStrD
  rw [h]
  rfl

/-- Unfolding `env.bool` on an absent variable. -/
theorem envBoolD_none {e : Environ} {name : String} {df : Bool} (h : e name = none) :
    envBoolD e name df = some df := by
  unfold envBoolD
  rw [h]

/-- Unfolding `env.bool` on a present variable. -/
theorem envBoolD_somev {e : Environ} {name v : String} {df : Bool} (h : e name = some v) :
    envBoolD e name df = parseBool v := by
  unfold envBoolD
  rw [h]

/-- Unfolding `env.int` on an absent variable. -/
theorem envIntD_none {e : Environ} {name : String} {df : Int} (h : e name = none) :
    envIntD e name df = some df := by
  unfold envIntD
  rw [h]

/-- Unfolding `env.int` on a present variable. -/
theorem envIntD_somev {e : Environ} {name v : String} {df : Int} (h : e name = some v) :
    envIntD e name df = parseInt v := by
  unfold envIntD
  rw [h]

/-- Inversion: a successfully built base configuration pins down the five
required environment values and the whole record. -/
theorem mkBase_some {fs : FsCtx} {e : Environ} {b : BaseConfig}
    (h : mkBase fs e = some b) :
    ∃ fa sk zak zlid zlt,
      e "FLASK_APP" = some fa ∧ e "SECRET_KEY" = some sk
      ∧ e "KERKO_ZOTERO_API_KEY" = some zak
      ∧ e "KERKO_ZOTERO_LIBRARY_ID" = some zlid
      ∧ e "KERKO_ZOTERO_LIBRARY_TYPE" = some zlt
      ∧ b = baseOf fs e fa sk zak zlid zlt := by
  unfold mkBase at h
  split at h
  · rename_i fa sk zak zlid zlt hfa hsk hzak hzlid hzlt
    exact ⟨fa, sk, zak, zlid, zlt, hfa, hsk, hzak, hzlid, hzlt, (Option.some.inj h).symm⟩
  · exact absurd h (by simp)

/-- Inversion: a successfully built development configuration pins down
the base record and the three parsed extras. -/
theorem mkDev_some {fs : FsCtx} {e : Environ} {d : DevConfig}
    (h : mkDev fs e = some d) :
    ∃ b ad zs ze,
      mkBase fs e = some b
      ∧ envBoolD e "ASSETS_DEBUG" true = some ad
      ∧ envIntD e "KERKO_ZOTERO_START" 0 = some zs
      ∧ envIntD e "KERKO_ZOTERO_END" 0 = some ze
      ∧ d = devOf e b ad zs ze := by
  unfold mkDev at h
  split at h
  · rename_i b ad zs ze hb had hzs hze
    exact ⟨b, ad, zs, ze, hb, had, hzs, hze, (Option.some.inj h).symm⟩
  · exact absurd h (by simp)

/-- Inversion: a successfully built production configuration pins down
the base record and the parsed `ASSETS_DEBUG`. -/
theorem mkProd_some {fs : FsCtx} {e : Environ} {p : ProdConfig}
    (h : mkProd fs e = some p) :
    ∃ b ad,
      mkBase fs e = some b
      ∧ envBoolD e "ASSETS_DEBUG" false = some ad
      ∧ p = prodOf e b ad := by
  unfold mkProd at h
  split at h
  · rename_i b ad hb had
    exact ⟨b, ad, hb, had, (Option.some.inj h).symm⟩
  · exact absurd h (by simp)

/-- A concrete filesystem context used by the witnesses. -/
def fs0 : FsCtx :=
  { absParent := fun p => pathJoin "/abs" p
    pkgParent := "/pkg" }

/-- A concrete environment with exactly the five required variables set. -/
def envReq : Environ := fun n =>
  if n = "FLASK_APP" then some "app/wsgi.py"
  else if n = "SECRET_KEY" then some "s3cret"
  else if n = "KERKO_ZOTERO_API_KEY" then some "zkey"
  else if n = "KERKO_ZOTERO_LIBRARY_ID" then some "1234567"
  else if n = "KERKO_ZOTERO_LIBRARY_TYPE" then some "group"
  else none

/-- The empty environment: every variable absent. -/
def envEmpty : Environ := fun _ => none

/-- The required variables plus an unparseable `KERKO_ZOTERO_START`. -/
def envBadInt : Environ := fun n =>
  if n = "KERKO_ZOTERO_START" then some "not-an-int" else envReq n

/-- C5.  With the required variables present, absent optional variables
fall back to the documented defaults (`KERKO_DATA_DIR` to the app dir
joined with `data`/`kerko`; in development `ASSETS_DEBUG` to `True`,
`KERKO_ZOTERO_START` and `KERKO_ZOTERO_END` to `0`, `LOGGING_LEVEL` to
`DEBUG`; in production `ASSETS_DEBUG` to `False`, `LOGGING_LEVEL` to
`WARNING`), and present variables yield their parsed values. -/
theorem C5_defaults (fs : FsCtx) (e : Environ) :
    (∀ b, mkBase fs e = some b →
      (e "KERKO_DATA_DIR" = none →
        b.KERKO_DATA_DIR = pathJoin (pathJoin b.app_dir "data") "kerko")
      ∧ (∀ v, e "KERKO_DATA_DIR" = some v → b.KERKO_DATA_DIR = v))
    ∧ (∀ d, mkDev fs e = some d →
      (e "ASSETS_DEBUG" = none → d.ASSETS_DEBUG = true)
      ∧ (e "KERKO_ZOTERO_START" = none → d.KERKO_ZOTERO_START = 0)
      ∧ (e "KERKO_ZOTERO_END" = none → d.KERKO_ZOTERO_END = 0)
      ∧ (e "LOGGING_LEVEL" = none → d.LOGGING_LEVEL = "DEBUG")
      ∧ (∀ v, e "LOGGING_LEVEL" = some v → d.LOGGING_LEVEL = v)
      ∧ (∀ v x, e "ASSETS_DEBUG" = some v → parseBool v = some x → d.ASSETS_DEBUG = x)
      ∧ (∀ v x, e "KERKO_ZOTERO_START" = some v → parseInt v = some x →
          d.KERKO_ZOTERO_START = x)
      ∧ (∀ v x, e "KERKO_ZOTERO_END" = some v → parseInt v = some x →
          d.KERKO_ZOTERO_END = x))
    ∧ (∀ p, mkProd fs e = some p →
      (e "ASSETS_DEBUG" = none → p.ASSETS_DEBUG = false)
      ∧ (e "LOGGING_LEVEL" = none → p.LOGGING_LEVEL = "WARNING")
      ∧ (∀ v, e "LOGGING_LEVEL" = some v → p.LOGGING_LEVEL = v)
      ∧ (∀ v x, e "ASSETS_DEBUG" = some v → parseBool v = some x →
          p.ASSETS_DEBUG = x)) := by
  refine ⟨?_, ?_, ?_⟩
  · intro b hb
    obtain ⟨fa, sk, zak, zlid, zlt, h1, h2, h3, h4, h5, rfl⟩ := mkBase_some hb
    constructor
    · intro hn
      exact envStrD_none hn
    · intro v hv
      exact envStrD_some hv
  · intro d hd
    obtain ⟨b, ad, zs, ze, hb, had, hzs, hze, rfl⟩ := mkDev_some hd
    refine ⟨?_, ?_, ?_, ?_, ?_, ?_, ?_, ?_⟩
    · intro hn
      rw [envBoolD_none hn] at had
      exact (Option.some.inj had).symm
    · intro hn
      rw [envIntD_none hn] at hzs
      exact (Option.some.inj hzs).symm
    · intro hn
      rw [envIntD_none hn] at hze
      exact (Option.some.inj hze).symm
    · intro hn
      exact envStrD_none hn
    · intro v hv
      exact envStrD_some hv
    · intro v x hv hx
      rw [envBoolD_somev hv, hx] at had
      exact (Option.some.inj had).symm
    · intro v x hv hx
      rw [envIntD_somev hv, hx] at hzs
      exact (Option.some.inj hzs).symm
    · intro v x hv hx
      rw [envIntD_somev hv, hx] at hze
      exact (Option.some.inj hze).symm
  · intro p hp
    obtain ⟨b, ad, hb, had, rfl⟩ := mkProd_some hp
    refine ⟨?_, ?_, ?_, ?_⟩
    · intro hn
      rw [envBoolD_none hn] at had
      exact (Option.some.inj had).symm
    · intro hn
      exact envStrD_none hn
    · intro v hv
      exact envStrD_some hv
    · intro v x hv hx
      rw [envBoolD_somev hv, hx] at had
      exact (Option.some.inj had).symm

/-- C5 witness: under the concrete environment with all optional
variables absent, both configurations expose exactly the defaults. -/
theorem C5_witness :
    envReq "ASSETS_DEBUG" = none
    ∧ (mkDev fs0 envReq).elim False (fun d =>
        d.ASSETS_DEBUG = true ∧ d.KERKO_ZOTERO_START = 0 ∧ d.KERKO_ZOTERO_END = 0
        ∧ d.LOGGING_LEVEL = "DEBUG")
    ∧ (mkProd fs0 envReq).elim False (fun p =>
        p.ASSETS_DEBUG = false ∧ p.LOGGING_LEVEL = "WARNING")
    ∧ (mkBase fs0 envReq).elim False (fun b =>
        b.KERKO_DATA_DIR = pathJoin (pathJoin b.app_dir "data") "kerko") := by
  refine ⟨rfl, ?_, ?_, ?_⟩
  · cases hd : mkDev fs0 envReq with
    | none =>
      have hs : (mkDev fs0 envReq).isSome = true := by decide
      rw [hd] at hs
      simp at hs
    | some d =>
      obtain ⟨hA, hS, hE, hL, _⟩ := (C5_defaults fs0 envReq).2.1 d hd
      exact ⟨hA rfl, hS rfl, hE rfl, hL rfl⟩
  · cases hp : mkProd fs0 envReq with
    | none =>
      have hs : (mkProd fs0 envReq).isSome = true := by decide
      rw [hp] at hs
      simp at hs
    | some p =>
      obtain ⟨hA, hL, _⟩ := (C5_defaults fs0 envReq).2.2 p hp
      exact ⟨hA rfl, hL rfl⟩
  · cases hb : mkBase fs0 envReq with
    | none =>
      have hs : (mkBase fs0 envReq).isSome = true := by decide
      rw [hb] at hs
      simp at hs
    | some b =>
      obtain ⟨hK, _⟩ := (C5_defaults fs0 envReq).1 b hb
      exact hK rfl

/-- C6.  If any of the five required variables is absent, no
configuration object is produced at all: the base class body, both
subclasses and the whole module import fail. -/
theorem C6_required (fs : FsCtx) (e : Environ)
    (h : e "FLASK_APP" = none ∨ e "SECRET_KEY" = none
      ∨ e "KERKO_ZOTERO_API_KEY" = none ∨ e "KERKO_ZOTERO_LIBRARY_ID" = none
      ∨ e "KERKO_ZOTERO_LIBRARY_TYPE" = none) :
    mkBase fs e = none ∧ mkDev fs e = none ∧ mkProd fs e = none
    ∧ loadModule fs e = none := by
  have hb : mkBase fs e = none := by
    cases hmb : mkBase fs e with
    | none => rfl
    | some b =>
      obtain ⟨fa, sk, zak, zlid, zlt, h1, h2, h3, h4, h5, _⟩ := mkBase_some hmb
      rcases h with h | h | h | h | h <;> simp_all
  have hd : mkDev fs e = none := by
    cases hmd : mkDev fs e with
    | none => rfl
    | some d =>
      obtain ⟨b, _, _, _, hbb, _⟩ := mkDev_some hmd
      rw [hb] at hbb
      exact absurd hbb (by simp)
  have hp : mkProd fs e = none := by
    cases hmp : mkProd fs e with
    | none => rfl
    | some p =>
      obtain ⟨b, _, hbb, _⟩ := mkProd_some hmp
      rw [hb] at hbb
      exact absurd hbb (by simp)
  refine ⟨hb, hd, hp, ?_⟩
  unfold loadModule
  rw [hd, hp]

/-- C6 witness: with the empty environment (so `FLASK_APP` is absent),
nothing is produced. -/
theorem C6_witness :
    mkBase fs0 envEmpty = none ∧ mkDev fs0 envEmpty = none
    ∧ mkProd fs0 envEmpty = none ∧ loadModule fs0 envEmpty = none :=
  C6_required fs0 envEmpty (Or.inl rfl)

/-- C7 counterexample: with an unparseable `KERKO_ZOTERO_START`, building
the development configuration fails (it int-parses the variable) while
the production configuration still builds — so the production
configuration does not consume `KERKO_ZOTERO_START` with a typed parse,
contradicting the claim that all ten variables are consumed by both. -/
theorem C7_counterexample :
    (mkDev fs0 envBadInt).isNone = true ∧ (mkProd fs0 envBadInt).isSome = true := by
  decide

/-- C7 (amended).  Every variable each configuration consumes is consumed
with a typed parse: in development, `ASSETS_DEBUG` as a boolean,
`KERKO_ZOTERO_START` and `KERKO_ZOTERO_END` as integers, and the seven
remaining variables as strings; in production the same except that
`KERKO_ZOTERO_START` and `KERKO_ZOTERO_END` are not consumed (only the
development class reads them). -/
theorem C7_typed (fs : FsCtx) (e : Environ) :
    (∀ d, mkDev fs e = some d →
      envBoolD e "ASSETS_DEBUG" true = some d.ASSETS_DEBUG
      ∧ envIntD e "KERKO_ZOTERO_START" 0 = some d.KERKO_ZOTERO_START
      ∧ envIntD e "KERKO_ZOTERO_END" 0 = some d.KERKO_ZOTERO_END
      ∧ e "SECRET_KEY" = some d.SECRET_KEY
      ∧ e "KERKO_ZOTERO_API_KEY" = some d.KERKO_ZOTERO_API_KEY
      ∧ e "KERKO_ZOTERO_LIBRARY_ID" = some d.KERKO_ZOTERO_LIBRARY_ID
      ∧ e "KERKO_ZOTERO_LIBRARY_TYPE" = some d.KERKO_ZOTERO_LIBRARY_TYPE
      ∧ (∃ fa, e "FLASK_APP" = some fa ∧ d.app_dir = fs.absParent fa)
      ∧ d.KERKO_DATA_DIR
          = envStrD e "KERKO_DATA_DIR" (pathJoin (pathJoin d.app_dir "data") "kerko")
      ∧ d.LOGGING_LEVEL = envStrD e "LOGGING_LEVEL" "DEBUG")
    ∧ (∀ p, mkProd fs e = some p →
      envBoolD e "ASSETS_DEBUG" false = some p.ASSETS_DEBUG
      ∧ e "SECRET_KEY" = some p.SECRET_KEY
      ∧ e "KERKO_ZOTERO_API_KEY" = some p.KERKO_ZOTERO_API_KEY
      ∧ e "KERKO_ZOTERO_LIBRARY_ID" = some p.KERKO_ZOTERO_LIBRARY_ID
      ∧ e "KERKO_ZOTERO_LIBRARY_TYPE" = some p.KERKO_ZOTERO_LIBRARY_TYPE
      ∧ (∃ fa, e "FLASK_APP" = some fa ∧ p.app_dir = fs.absParent fa)
      ∧ p.KERKO_DATA_DIR
          = envStrD e "KERKO_DATA_DIR" (pathJoin (pathJoin p.app_dir "data") "kerko")
      ∧ p.LOGGING_LEVEL = envStrD e "LOGGING_LEVEL" "WARNING") := by
  constructor
  · intro d hd
    obtain ⟨b, ad, zs, ze, hb, had, hzs, hze, rfl⟩ := mkDev_some hd
    obtain ⟨fa, sk, zak, zlid, zlt, h1, h2, h3, h4, h5, rfl⟩ := mkBase_some hb
    exact ⟨had, hzs, hze, h2, h3, h4, h5, ⟨fa, h1, rfl⟩, rfl, rfl⟩
  · intro p hp
    obtain ⟨b, ad, hb, had, rfl⟩ := mkProd_some hp
    obtain ⟨fa, sk, zak, zlid, zlt, h1, h2, h3, h4, h5, rfl⟩ := mkBase_some hb
    exact ⟨had, h2, h3, h4, h5, ⟨fa, h1, rfl⟩, rfl, rfl⟩

/-- C7 witness: the typed-parse relations evaluated on the concrete
environment. -/
theorem C7_witness :
    (mkDev fs0 envReq).elim False (fun d =>
      envBoolD envReq "ASSETS_DEBUG" true = some d.ASSETS_DEBUG
      ∧ envIntD envReq "KERKO_ZOTERO_START" 0 = some d.KERKO_ZOTERO_START
      ∧ envReq "SECRET_KEY" = some d.SECRET_KEY)
    ∧ (mkProd fs0 envReq).elim False (fun p =>
      envBoolD envReq "ASSETS_DEBUG" false = some p.ASSETS_DEBUG
      ∧ envReq "SECRET_KEY" = some p.SECRET_KEY) := by
  constructor
  · cases hd : mkDev fs0 envReq with
    | none =>
      have hs : (mkDev fs0 envReq).isSome = true := by decide
      rw [hd] at hs
      simp at hs
    | some d =>
      obtain ⟨hA, hS, _, hK, _⟩ := (C7_typed fs0 envReq).1 d hd
      exact ⟨hA, hS, hK⟩
  · cases hp : mkProd fs0 envReq with
    | none =>
      have hs : (mkProd fs0 envReq).isSome = true := by decide
      rw [hp] at hs
      simp at hs
    | some p =>
      obtain ⟨hA, hK, _⟩ := (C7_typed fs0 envReq).2 p hp
      exact ⟨hA, hK⟩

/-- C8.  The registered field keys (`data`, `preview`) are pairwise
distinct, the registered facet keys (`facet_proposal`, `facet_theme`,
`facet_location`) are pairwise distinct, and every successfully built
configuration exposes exactly the composer produced by the startup
registrations, unchanged. -/
theorem C8_unique_keys (fs : FsCtx) (e : Environ) :
    (kerkoComposer.fields.map FieldSpec.key).Nodup
    ∧ (kerkoComposer.facets.map CollectionFacetSpec.key).Nodup
    ∧ (∀ d, mkDev fs e = some d → d.KERKO_COMPOSER = kerkoComposer)
    ∧ (∀ p, mkProd fs e = some p → p.KERKO_COMPOSER = kerkoComposer) := by
  refine ⟨by decide, by decide, ?_, ?_⟩
  · intro d hd
    obtain ⟨b, ad, zs, ze, hb, _, _, _, rfl⟩ := mkDev_some hd
    obtain ⟨fa, sk, zak, zlid, zlt, _, _, _, _, _, rfl⟩ := mkBase_some hb
    rfl
  · intro p hp
    obtain ⟨b, ad, hb, _, rfl⟩ := mkProd_some hp
    obtain ⟨fa, sk, zak, zlid, zlt, _, _, _, _, _, rfl⟩ := mkBase_some hb
    rfl

/-- C8 witness: the key-uniqueness facts together with the composer
exposed by a concretely built development configuration. -/
theorem C8_witness :
    (kerkoComposer.fields.map FieldSpec.key).Nodup
    ∧ (mkDev fs0 envReq).elim False (fun d => d.KERKO_COMPOSER = kerkoComposer) := by
  constructor
  · exact (C8_unique_keys fs0 envReq).1
  · cases hd : mkDev fs0 envReq with
    | none =>
      have hs : (mkDev fs0 envReq).isSome = true := by decide
      rw [hd] at hs
      simp at hs
    | some d => exact (C8_unique_keys fs0 envReq).2.2.1 d hd

/-- C9.  Both subclasses are the base configuration plus overrides: a
built development or production configuration carries the base record
unchanged (every base attribute is exposed as-is) together with its
class-specific extras, and the `CONFIGS` table maps exactly the two
environment names to the corresponding constructors. -/
theorem C9_frame (fs : FsCtx) (e : Environ) :
    (∀ d, mkDev fs e = some d → ∃ b, mkBase fs e = some b ∧ d.toBaseConfig = b
      ∧ d.CONFIG = "development" ∧ d.DEBUG = true ∧ d.LIBSASS_STYLE = "expanded")
    ∧ (∀ p, mkProd fs e = some p → ∃ b, mkBase fs e = some b ∧ p.toBaseConfig = b
      ∧ p.CONFIG = "production" ∧ p.DEBUG = false ∧ p.ASSETS_AUTO_BUILD = false
      ∧ p.GOOGLE_ANALYTICS_ID = "" ∧ p.LIBSASS_STYLE = "compressed")
    ∧ (∀ name cfg, CONFIGS fs e name = some cfg →
        (name = "development" ∧ ∃ d, cfg = Sum.inl d ∧ mkDev fs e = some d)
        ∨ (name = "production" ∧ ∃ p, cfg = Sum.inr p ∧ mkProd fs e = some p)) := by
  refine ⟨?_, ?_, ?_⟩
  · intro d hd
    obtain ⟨b, ad, zs, ze, hb, _, _, _, rfl⟩ := mkDev_some hd
    exact ⟨b, hb, rfl, rfl, rfl, rfl⟩
  · intro p hp
    obtain ⟨b, ad, hb, _, rfl⟩ := mkProd_some hp
    exact ⟨b, hb, rfl, rfl, rfl, rfl, rfl, rfl⟩
  · intro name cfg h
    unfold CONFIGS at h
    split at h
    · rename_i hname
      cases hmd : mkDev fs e with
      | none => rw [hmd] at h; exact absurd h (by simp)
      | some d =>
        rw [hmd] at h
        exact Or.inl ⟨hname, d, (Option.some.inj h).symm, rfl⟩
    · split at h
      · rename_i hname
        cases hmp : mkProd fs e with
        | none => rw [hmp] at h; exact absurd h (by simp)
        | some p =>
          rw [hmp] at h
          exact Or.inr ⟨hname, p, (Option.some.inj h).symm, rfl⟩
      · exact absurd h (by simp)

/-- C9 witness: a concretely built development configuration exposes the
base record unchanged together with its extras. -/
theorem C9_witness :
    (mkDev fs0 envReq).elim False (fun d =>
      ∃ b, mkBase fs0 envReq = some b ∧ d.toBaseConfig = b
      ∧ d.CONFIG = "development" ∧ d.DEBUG = true ∧ d.LIBSASS_STYLE = "expanded") := by
  cases hd : mkDev fs0 envReq with
  | none =>
    have hs : (mkDev fs0 envReq).isSome = true := by decide
    rw [hd] at hs
    simp at hs
  | some d => exact (C9_frame fs0 envReq).1 d hd
